import Mathlib

/-!
Shallow embedding of `src/back_end.rs` of the `gfx_graphics` 2D rendering
back end, together with theorems about its pipeline-state selection and
draw-submission behaviour.

The back end adapts the `graphics` crate's draw abstraction onto the `gfx`
crate's pipeline-object model.  Machine scalars: `u8`, `u16` and `u32`
values are modelled as `Nat` with explicit `% 2 ^ w` where the source
performs a narrowing `as` cast; the `f32` vertex/color scalars are an
opaque type parameter `F` (their numeric values are never inspected by the
code under verification).  Calls into the `gfx` encoder are modelled as a
trace of emitted commands; the `assert_eq!` panic in `tri_list_uv` is
modelled as an error that aborts the remaining batches.
-/

namespace GfxG

/-! ### Model of the `gfx` crate state types (external collaborator)

These mirror the `gfx::state` types that `back_end.rs` consumes:
blend equations/factors, stencil descriptors and color write masks. -/

namespace gfxm

/-- Rust `gfx::state::Equation`. -/
inductive Equation
  | Add
  | Sub
  | RevSub
  | Min
  | Max
  deriving DecidableEq

/-- Rust `gfx::state::BlendValue`. -/
inductive BlendValue
  | SourceColor
  | SourceAlpha
  | DestColor
  | DestAlpha
  | ConstColor
  | ConstAlpha
  deriving DecidableEq

/-- Rust `gfx::state::Factor`. -/
inductive Factor
  | Zero
  | One
  | SourceAlphaSaturated
  | ZeroPlus (v : BlendValue)
  | OneMinus (v : BlendValue)
  deriving DecidableEq

/-- Rust `gfx::state::BlendChannel`. -/
structure BlendChannel where
  equation : Equation
  source : Factor
  destination : Factor
  deriving DecidableEq

/-- Rust `gfx::state::Blend`: one blend channel for color, one for alpha. -/
structure Blend where
  color : BlendChannel
  alpha : BlendChannel
  deriving DecidableEq

/-- Rust `gfx::state::Comparison`. -/
inductive Comparison
  | Never
  | Less
  | LessEqual
  | Equal
  | GreaterEqual
  | Greater
  | NotEqual
  | Always
  deriving DecidableEq

/-- Rust `gfx::state::StencilOp`. -/
inductive StencilOp
  | Keep
  | Zero
  | Replace
  | IncrementClamp
  | IncrementWrap
  | DecrementClamp
  | DecrementWrap
  | Invert
  deriving DecidableEq

/-- Rust `gfx::state::StencilSide`.  The Rust field `fun` is a Lean keyword and
is rendered `fun_`; masks are `u8` values modelled as `Nat`. -/
structure StencilSide where
  fun_ : Comparison
  mask_read : Nat
  mask_write : Nat
  op_fail : StencilOp
  op_depth_fail : StencilOp
  op_pass : StencilOp
  deriving DecidableEq

/-- Rust `gfx::state::Stencil`: front and back stencil sides. -/
structure Stencil where
  front : StencilSide
  back : StencilSide
  deriving DecidableEq

/-- Rust `gfx::state::Stencil::new(fun, mask, (op_fail, op_depth_fail, op_pass))`:
builds identical front and back sides from one comparison, one mask and one
operation triple. -/
def Stencil.new (fun_ : Comparison) (mask : Nat)
    (ops : StencilOp × StencilOp × StencilOp) : Stencil :=
  let side : StencilSide :=
    { fun_ := fun_, mask_read := mask, mask_write := mask,
      op_fail := ops.1, op_depth_fail := ops.2.1, op_pass := ops.2.2 }
  { front := side, back := side }

/-- Rust `gfx::state::ColorMask`: per-channel color write mask bits. -/
structure ColorMask where
  red : Bool
  green : Bool
  blue : Bool
  alpha : Bool
  deriving DecidableEq

/-- Rust `gfx::state::MASK_ALL`: all channels writable. -/
def MASK_ALL : ColorMask := ⟨true, true, true, true⟩

/-- Rust `gfx::state::MASK_NONE`: no channel writable. -/
def MASK_NONE : ColorMask := ⟨false, false, false, false⟩

/-- Rust `gfx::preset::blend::ALPHA` (external preset; its exact channel values
play no role in the theorems below, only its identity as an argument). -/
def blendALPHA : Blend :=
  { color := { equation := .Add, source := .ZeroPlus .SourceAlpha,
               destination := .OneMinus .SourceAlpha },
    alpha := { equation := .Add, source := .One, destination := .One } }

/-- Rust `gfx::preset::blend::ADD` (external preset). -/
def blendADD : Blend :=
  { color := { equation := .Add, source := .One, destination := .One },
    alpha := { equation := .Add, source := .One, destination := .One } }

/-- Rust `gfx::preset::blend::MULTIPLY` (external preset). -/
def blendMULTIPLY : Blend :=
  { color := { equation := .Add, source := .ZeroPlus .DestColor,
               destination := .Zero },
    alpha := { equation := .Add, source := .ZeroPlus .DestAlpha,
               destination := .Zero } }

/-- Rust `gfx::preset::blend::INVERT` (external preset). -/
def blendINVERT : Blend :=
  { color := { equation := .Sub, source := .ZeroPlus .ConstColor,
               destination := .ZeroPlus .SourceColor },
    alpha := { equation := .Add, source := .Zero, destination := .One } }

/-- Rust `gfx::format::SurfaceType`: the full enumeration matched by
`has_texture_alpha` (all twenty constructors of the crate's enum). -/
inductive SurfaceType
  | R4_G4_B4_A4
  | R5_G5_B5_A1
  | R8_G8_B8_A8
  | R10_G10_B10_A2
  | R16_G16_B16_A16
  | R32_G32_B32_A32
  | R3_G3_B2
  | R4_G4
  | R5_G6_B5
  | R8
  | R8_G8
  | R8_G8_B8
  | R11_G11_B10
  | R16
  | R16_G16
  | R16_G16_B16
  | R32
  | R32_G32
  | R32_G32_B32
  | D16
  | D24
  | D24_S8
  | D32
  deriving DecidableEq

end gfxm

/-! ### Model of the `graphics` crate draw-state types (external collaborator) -/

namespace draw_state

/-- Rust `graphics::draw_state::Blend`. -/
inductive Blend
  | Alpha
  | Add
  | Multiply
  | Invert
  deriving DecidableEq

/-- Rust `graphics::draw_state::Stencil`; the carried value is a `u8` stencil
reference, modelled as `Nat`. -/
inductive Stencil
  | Clip (val : Nat)
  | Inside (val : Nat)
  | Outside (val : Nat)
  deriving DecidableEq

end draw_state

/-- Rust `graphics::DrawState`: blend mode, clip/stencil mode and scissor
rectangle, each optional.  The scissor is `Option<[u32; 4]>`; the four
`u32` components are modelled as `Nat`. -/
structure DrawState where
  blend : Option draw_state.Blend
  stencil : Option draw_state.Stencil
  scissor : Option (Nat × Nat × Nat × Nat)
  deriving DecidableEq

/-- An `[f32; 4]` color. -/
structure Color (F : Type) where
  r : F
  g : F
  b : F
  a : F
  deriving DecidableEq

/-- Modelled from the spec: `gamma_srgb_to_linear` lives in the external
`graphics` crate (color-space conversion is "used as a pure function at the
boundary").  Per the spec's glossary it is the standard sRGB-to-linear
transfer function, which acts componentwise on the red, green and blue
channels and leaves alpha unchanged; the scalar transfer function itself is
abstracted as the parameter `tf`. -/
def gamma_srgb_to_linear {F : Type} (tf : F → F) (c : Color F) : Color F :=
  { r := tf c.r, g := tf c.g, b := tf c.b, a := c.a }

/-! ### `back_end.rs` proper -/

/-- Rust `POS_COMPONENTS`: two position components per vertex. -/
def POS_COMPONENTS : Nat := 2

/-- Rust `UV_COMPONENTS`: two texture-coordinate components per vertex. -/
def UV_COMPONENTS : Nat := 2

/-- A texture as seen by this back end: only its surface format is
consulted (`texture.surface.get_info().format`). -/
structure Texture where
  format : gfxm.SurfaceType
  deriving DecidableEq

/-- Rust `PsoBlend<T>`: one pipeline entry per blend setting. -/
structure PsoBlend (T : Type) where
  alpha : T
  add : T
  multiply : T
  invert : T
  none : T
  deriving DecidableEq

/-- Rust `PsoBlend::blend`: selects the entry for an optional blend mode; an
absent blend mode selects the `none` entry. -/
def PsoBlend.blend {T : Type} (p : PsoBlend T) (b : Option draw_state.Blend) : T :=
  match b with
  | some .Alpha => p.alpha
  | some .Add => p.add
  | some .Multiply => p.multiply
  | some .Invert => p.invert
  | Option.none => p.none

/-- Rust `PsoStencil<T>`: one `PsoBlend` row per clip setting. -/
structure PsoStencil (T : Type) where
  none : PsoBlend T
  clip : PsoBlend T
  inside : PsoBlend T
  outside : PsoBlend T
  deriving DecidableEq

/-- The local `stencil` of `PsoStencil::new`: always pass, keep. -/
def stencil : gfxm.Stencil :=
  gfxm.Stencil.new .Always 0 (.Keep, .Keep, .Keep)

/-- The local `stencil_clip` of `PsoStencil::new`: never pass, replace the
stencil buffer with the reference value on fail. -/
def stencil_clip : gfxm.Stencil :=
  gfxm.Stencil.new .Never 255 (.Replace, .Keep, .Keep)

/-- The local `stencil_inside` of `PsoStencil::new`: pass where equal. -/
def stencil_inside : gfxm.Stencil :=
  gfxm.Stencil.new .Equal 255 (.Keep, .Keep, .Keep)

/-- The local `stencil_outside` of `PsoStencil::new`: pass where not equal. -/
def stencil_outside : gfxm.Stencil :=
  gfxm.Stencil.new .NotEqual 255 (.Keep, .Keep, .Keep)

/-- The local `no_blend` of `PsoStencil::new`: blending "faked off" as a
degenerate blend function (source `One`, destination `Zero`, `Add`) on both
channels. -/
def no_blend : gfxm.Blend :=
  { color := { equation := .Add, source := .One, destination := .Zero },
    alpha := { equation := .Add, source := .One, destination := .Zero } }

/-- Rust `PsoStencil::new`: builds the 4 x 5 pipeline matrix by calling the
pipeline-creation function `f` once per (clip row, blend column) pair with
that cell's blend function, stencil descriptor and color write mask.  The
`factory` argument threaded through in Rust carries no observable state in
this model and is dropped. -/
def PsoStencil.new {T : Type}
    (f : gfxm.Blend → gfxm.Stencil → gfxm.ColorMask → T) : PsoStencil T :=
  { none :=
      { alpha := f gfxm.blendALPHA stencil gfxm.MASK_ALL,
        add := f gfxm.blendADD stencil gfxm.MASK_ALL,
        multiply := f gfxm.blendMULTIPLY stencil gfxm.MASK_ALL,
        invert := f gfxm.blendINVERT stencil gfxm.MASK_ALL,
        none := f no_blend stencil gfxm.MASK_ALL },
    clip :=
      { alpha := f gfxm.blendALPHA stencil_clip gfxm.MASK_NONE,
        add := f gfxm.blendADD stencil_clip gfxm.MASK_NONE,
        multiply := f gfxm.blendMULTIPLY stencil_clip gfxm.MASK_NONE,
        invert := f gfxm.blendINVERT stencil_clip gfxm.MASK_NONE,
        none := f no_blend stencil_clip gfxm.MASK_NONE },
    inside :=
      { alpha := f gfxm.blendALPHA stencil_inside gfxm.MASK_ALL,
        add := f gfxm.blendADD stencil_inside gfxm.MASK_ALL,
        multiply := f gfxm.blendMULTIPLY stencil_inside gfxm.MASK_ALL,
        invert := f gfxm.blendINVERT stencil_inside gfxm.MASK_ALL,
        none := f no_blend stencil_inside gfxm.MASK_ALL },
    outside :=
      { alpha := f gfxm.blendALPHA stencil_outside gfxm.MASK_ALL,
        add := f gfxm.blendADD stencil_outside gfxm.MASK_ALL,
        multiply := f gfxm.blendMULTIPLY stencil_outside gfxm.MASK_ALL,
        invert := f gfxm.blendINVERT stencil_outside gfxm.MASK_ALL,
        none := f no_blend stencil_outside gfxm.MASK_ALL } }

/-- Rust `PsoStencil::stencil_blend`: returns the pipeline entry and the stencil
reference value for an optional clip/stencil setting and an optional blend
setting. -/
def PsoStencil.stencil_blend {T : Type} (m : PsoStencil T)
    (s : Option draw_state.Stencil) (b : Option draw_state.Blend) : T × Nat :=
  match s with
  | Option.none => (m.none.blend b, 0)
  | some (.Clip val) => (m.clip.blend b, val)
  | some (.Inside val) => (m.inside.blend b, val)
  | some (.Outside val) => (m.outside.blend b, val)

/-- Which linked shader program a pipeline was compiled from. -/
inductive Program
  | Colored
  | Textured
  deriving DecidableEq

/-- Rust `gfx::Primitive` (only the variant the back end uses matters). -/
inductive Primitive
  | TriangleList
  deriving DecidableEq

/-- A compiled `PipelineState`, modelled by the parameters the back end
passes to `create_pipeline_from_program`: the program, the primitive
topology, and the per-cell blend function, stencil descriptor and color
write mask. -/
structure PipelineState where
  program : Program
  primitive : Primitive
  blend : gfxm.Blend
  stencil : gfxm.Stencil
  mask : gfxm.ColorMask
  deriving DecidableEq

/-- The `colored_pipeline` closure of `Gfx2d::new`: compiles a colored
pipeline for a blend, stencil and color mask. -/
def colored_pipeline (blend_preset : gfxm.Blend) (s : gfxm.Stencil)
    (color_mask : gfxm.ColorMask) : PipelineState :=
  { program := .Colored, primitive := .TriangleList,
    blend := blend_preset, stencil := s, mask := color_mask }

/-- The `textured_pipeline` closure of `Gfx2d::new`. -/
def textured_pipeline (blend_preset : gfxm.Blend) (s : gfxm.Stencil)
    (color_mask : gfxm.ColorMask) : PipelineState :=
  { program := .Textured, primitive := .TriangleList,
    blend := blend_preset, stencil := s, mask := color_mask }

/-- Rust `Gfx2d::new`'s colored pipeline matrix: `PsoStencil::new(factory,
colored_pipeline)`. -/
def colored : PsoStencil PipelineState := PsoStencil.new colored_pipeline

/-- Rust `Gfx2d::new`'s textured pipeline matrix. -/
def textured : PsoStencil PipelineState := PsoStencil.new textured_pipeline

/-- Rust `gfx::core::target::Rect` with `u16` fields, modelled as `Nat`. -/
structure Rect where
  x : Nat
  y : Nat
  w : Nat
  h : Nat
  deriving DecidableEq

/-- Rust `std::u16::MAX`. -/
def U16_MAX : Nat := 65535

/-- The scissor computation shared by `tri_list` and `tri_list_uv`: an
absent scissor becomes the full-extent rectangle; a present `[u32; 4]`
rectangle is narrowed componentwise by `as u16`, i.e. reduced `% 2 ^ 16`. -/
def scissor_of (s : Option (Nat × Nat × Nat × Nat)) : Rect :=
  match s with
  | Option.none => { x := 0, y := 0, w := U16_MAX, h := U16_MAX }
  | some r => { x := r.1 % 65536, y := r.2.1 % 65536,
                w := r.2.2.1 % 65536, h := r.2.2.2 % 65536 }

/-- One issued draw call, carrying the `gfx::Slice` range and the bound
`Data` fields that vary with the draw state (buffer/target handles are
elided; the stencil reference pair is the `(stencil_val, stencil_val)` of
`stencil_target`). -/
structure DrawCall (F : Type) where
  start : Nat
  stop : Nat
  pso : PipelineState
  color : Color F
  stencil_ref : Nat × Nat
  blend_ref : F × F × F × F
  scissor : Rect
  texture : Option Texture
  deriving DecidableEq

/-- A command recorded into the encoder's command buffer. -/
inductive Cmd (F : Type)
  | clear (rgb : F × F × F)
  | clear_stencil (val : Nat)
  | update_pos (data : List F)
  | update_uv (data : List F)
  | draw (dc : DrawCall F)
  deriving DecidableEq

/-- Rust `GfxGraphics::has_texture_alpha`: true exactly for the six RGBA surface
formats; the match is exhaustive over the `SurfaceType` enumeration. -/
def has_texture_alpha (texture : Texture) : Bool :=
  match texture.format with
  | .R4_G4_B4_A4
  | .R5_G5_B5_A1
  | .R8_G8_B8_A8
  | .R10_G10_B10_A2
  | .R16_G16_B16_A16
  | .R32_G32_B32_A32 => true
  | .R3_G3_B2
  | .R4_G4
  | .R5_G6_B5
  | .R8 | .R8_G8 | .R8_G8_B8
  | .R11_G11_B10
  | .R16 | .R16_G16 | .R16_G16_B16
  | .R32 | .R32_G32 | .R32_G32_B32
  | .D16 | .D24 | .D24_S8 | .D32 => false

/-- Rust `GfxGraphics::clear_color`: gamma-corrects the input color and records
one clear command carrying its first three components. -/
def clear_color {F : Type} (tf : F → F) (color : Color F) : List (Cmd F) :=
  let color := gamma_srgb_to_linear tf color
  [Cmd.clear (color.r, color.g, color.b)]

/-- Rust `GfxGraphics::clear_stencil`: records one stencil-clear command. -/
def clear_stencil {F : Type} (value : Nat) : List (Cmd F) :=
  [Cmd.clear_stencil value]

/-- The inner callback of `tri_list`: uploads one flat position batch and
issues one draw call over `vertices.len() / POS_COMPONENTS` vertices. -/
def tri_list_inner {F : Type} (pso_colored : PipelineState) (color : Color F)
    (stencil_val : Nat) (blend_ref : F × F × F × F) (scissor : Rect)
    (vertices : List F) : List (Cmd F) :=
  [Cmd.update_pos vertices,
   Cmd.draw
     { start := 0, stop := vertices.length / POS_COMPONENTS,
       pso := pso_colored, color := color,
       stencil_ref := (stencil_val, stencil_val),
       blend_ref := blend_ref, scissor := scissor, texture := none }]

/-- Rust `GfxGraphics::tri_list`: gamma-corrects the color, selects a colored
pipeline and stencil value, computes the scissor, and runs the caller's
batches through the inner callback.  The caller body `f` is modelled by the
list of position batches it pushes. -/
def tri_list {F : Type} [One F] (tf : F → F) (ds : DrawState)
    (color : Color F) (batches : List (List F)) : List (Cmd F) :=
  let color := gamma_srgb_to_linear tf color
  let psv := colored.stencil_blend ds.stencil ds.blend
  let scissor := scissor_of ds.scissor
  batches.flatMap (tri_list_inner psv.1 color psv.2 (1, 1, 1, 1) scissor)

/-- The panic message of the `assert_eq!` in `tri_list_uv`'s inner
callback. -/
def assert_msg : String :=
  "assertion failed: vertices.len() * UV_COMPONENTS == texture_coords.len() * POS_COMPONENTS"

/-- The inner callback loop of `tri_list_uv`: each batch first checks
`vertices.len() * UV_COMPONENTS == texture_coords.len() * POS_COMPONENTS`;
on failure the assertion aborts, discarding this and all later batches; on
success it uploads both buffers and issues one draw call over
`vertices.len() / POS_COMPONENTS` vertices. -/
def tri_list_uv_go {F : Type} (pso_textured : PipelineState) (color : Color F)
    (stencil_val : Nat) (blend_ref : F × F × F × F) (scissor : Rect)
    (texture : Texture) :
    List (List F × List F) → List (Cmd F) × Option String
  | [] => ([], none)
  | (vertices, texture_coords) :: rest =>
    if vertices.length * UV_COMPONENTS = texture_coords.length * POS_COMPONENTS then
      let r := tri_list_uv_go pso_textured color stencil_val blend_ref scissor
        texture rest
      (Cmd.update_pos vertices :: Cmd.update_uv texture_coords ::
        Cmd.draw
          { start := 0, stop := vertices.length / POS_COMPONENTS,
            pso := pso_textured, color := color,
            stencil_ref := (stencil_val, stencil_val),
            blend_ref := blend_ref, scissor := scissor,
            texture := some texture } :: r.1,
       r.2)
    else ([], some assert_msg)

/-- Rust `GfxGraphics::tri_list_uv`: as `tri_list` but with the textured matrix,
a bound texture, and paired position/texcoord batches; returns the recorded
commands together with the assertion failure, if any. -/
def tri_list_uv {F : Type} [One F] (tf : F → F) (ds : DrawState)
    (color : Color F) (texture : Texture)
    (batches : List (List F × List F)) : List (Cmd F) × Option String :=
  let color := gamma_srgb_to_linear tf color
  let psv := textured.stencil_blend ds.stencil ds.blend
  let scissor := scissor_of ds.scissor
  tri_list_uv_go psv.1 color psv.2 (1, 1, 1, 1) scissor texture batches

/-- The draw calls recorded in a command list, in order. -/
def drawsOf {F : Type} (cmds : List (Cmd F)) : List (DrawCall F) :=
  cmds.filterMap fun c =>
    match c with
    | .draw dc => some dc
    | _ => none

/-- The draw call that `tri_list` issues for one position batch, spelled
out from the `pipe_colored::Data` record and the `gfx::Slice` it builds. -/
def colored_draw {F : Type} [One F] (tf : F → F) (ds : DrawState)
    (color : Color F) (vertices : List F) : DrawCall F :=
  { start := 0, stop := vertices.length / POS_COMPONENTS,
    pso := (colored.stencil_blend ds.stencil ds.blend).1,
    color := gamma_srgb_to_linear tf color,
    stencil_ref := ((colored.stencil_blend ds.stencil ds.blend).2,
                    (colored.stencil_blend ds.stencil ds.blend).2),
    blend_ref := (1, 1, 1, 1), scissor := scissor_of ds.scissor,
    texture := none }

/-- The draw call that `tri_list_uv` issues for one well-formed
position/texcoord batch pair. -/
def textured_draw {F : Type} [One F] (tf : F → F) (ds : DrawState)
    (color : Color F) (texture : Texture) (p : List F × List F) : DrawCall F :=
  { start := 0, stop := p.1.length / POS_COMPONENTS,
    pso := (textured.stencil_blend ds.stencil ds.blend).1,
    color := gamma_srgb_to_linear tf color,
    stencil_ref := ((textured.stencil_blend ds.stencil ds.blend).2,
                    (textured.stencil_blend ds.stencil ds.blend).2),
    blend_ref := (1, 1, 1, 1), scissor := scissor_of ds.scissor,
    texture := some texture }

/-- All twenty-three constructors of the `SurfaceType` enumeration. -/
def all_surface_types : List gfxm.SurfaceType :=
  [.R4_G4_B4_A4, .R5_G5_B5_A1, .R8_G8_B8_A8, .R10_G10_B10_A2,
   .R16_G16_B16_A16, .R32_G32_B32_A32, .R3_G3_B2, .R4_G4, .R5_G6_B5,
   .R8, .R8_G8, .R8_G8_B8, .R11_G11_B10, .R16, .R16_G16, .R16_G16_B16,
   .R32, .R32_G32, .R32_G32_B32, .D16, .D24, .D24_S8, .D32]

/-! ### Helper lemmas -/

theorem drawsOf_append {F : Type} (a b : List (Cmd F)) :
    drawsOf (a ++ b) = drawsOf a ++ drawsOf b := by
  simp [drawsOf, List.filterMap_append]

theorem mem_drawsOf {F : Type} {dc : DrawCall F} {cmds : List (Cmd F)}
    (h : Cmd.draw dc ∈ cmds) : dc ∈ drawsOf cmds := by
  simp only [drawsOf, List.mem_filterMap]
  exact ⟨Cmd.draw dc, h, rfl⟩

/-- The draw calls recorded by `tri_list` are exactly one per batch, each
the `colored_draw` of that batch. -/
theorem drawsOf_tri_list {F : Type} [One F] (tf : F → F) (ds : DrawState)
    (color : Color F) (batches : List (List F)) :
    drawsOf (tri_list tf ds color batches) =
      batches.map (colored_draw tf ds color) := by
  induction batches with
  | nil => rfl
  | cons v rest ih =>
    have h1 : tri_list tf ds color (v :: rest)
        = tri_list_inner (colored.stencil_blend ds.stencil ds.blend).1
            (gamma_srgb_to_linear tf color)
            (colored.stencil_blend ds.stencil ds.blend).2 (1, 1, 1, 1)
            (scissor_of ds.scissor) v ++ tri_list tf ds color rest := rfl
    rw [h1, drawsOf_append, ih]
    rfl

/-- When every batch pair satisfies the length contract, `tri_list_uv_go`
succeeds and records, per batch, the two uploads and one draw call. -/
theorem tri_list_uv_go_ok {F : Type} (pso : PipelineState) (color : Color F)
    (sv : Nat) (br : F × F × F × F) (sc : Rect) (tex : Texture)
    (batches : List (List F × List F))
    (h : ∀ p ∈ batches, p.1.length * UV_COMPONENTS = p.2.length * POS_COMPONENTS) :
    tri_list_uv_go pso color sv br sc tex batches =
      (batches.flatMap (fun p =>
        [Cmd.update_pos p.1, Cmd.update_uv p.2,
         Cmd.draw { start := 0, stop := p.1.length / POS_COMPONENTS, pso := pso,
                    color := color, stencil_ref := (sv, sv), blend_ref := br,
                    scissor := sc, texture := some tex }]), none) := by
  induction batches with
  | nil => rfl
  | cons p rest ih =>
    obtain ⟨v, t⟩ := p
    have hv : v.length * UV_COMPONENTS = t.length * POS_COMPONENTS :=
      h (v, t) (List.mem_cons_self _ _)
    have ihr := ih (fun q hq => h q (List.mem_cons_of_mem _ hq))
    simp only [tri_list_uv_go, if_pos hv, ihr]
    rfl

/-- If some batch violates the length contract, `tri_list_uv_go` reports
the assertion failure. -/
theorem tri_list_uv_go_err {F : Type} (pso : PipelineState) (color : Color F)
    (sv : Nat) (br : F × F × F × F) (sc : Rect) (tex : Texture)
    (batches : List (List F × List F))
    (h : ∃ p ∈ batches, p.1.length * UV_COMPONENTS ≠ p.2.length * POS_COMPONENTS) :
    (tri_list_uv_go pso color sv br sc tex batches).2 = some assert_msg := by
  induction batches with
  | nil => simp at h
  | cons p rest ih =>
    obtain ⟨v, t⟩ := p
    by_cases hv : v.length * UV_COMPONENTS = t.length * POS_COMPONENTS
    · obtain ⟨q, hq, hne⟩ := h
      rcases List.mem_cons.mp hq with hq1 | hq2
      · exact absurd (hq1 ▸ hv) hne
      · have := ih ⟨q, hq2, hne⟩
        simp only [tri_list_uv_go, if_pos hv]
        exact this
    · simp only [tri_list_uv_go, if_neg hv]

/-- Draw extraction over the per-batch command triple of `tri_list_uv`. -/
theorem drawsOf_uv_flatMap {F : Type} (mk : List F × List F → DrawCall F)
    (batches : List (List F × List F)) :
    drawsOf (batches.flatMap (fun p =>
      [Cmd.update_pos p.1, Cmd.update_uv p.2, Cmd.draw (mk p)]))
      = batches.map mk := by
  induction batches with
  | nil => rfl
  | cons p rest ih =>
    have h1 : (p :: rest).flatMap (fun p =>
        [Cmd.update_pos p.1, Cmd.update_uv p.2, Cmd.draw (mk p)])
        = [Cmd.update_pos p.1, Cmd.update_uv p.2, Cmd.draw (mk p)]
          ++ rest.flatMap (fun p =>
            [Cmd.update_pos p.1, Cmd.update_uv p.2, Cmd.draw (mk p)]) := rfl
    rw [h1, drawsOf_append, ih]
    rfl

/-- Every draw call recorded by `tri_list_uv_go` — also on a run cut short
by the assertion — carries the pipeline, stencil reference pair and
scissor fixed before the batch loop. -/
theorem drawsOf_uv_go_shape {F : Type} (pso : PipelineState) (color : Color F)
    (sv : Nat) (br : F × F × F × F) (sc : Rect) (tex : Texture)
    (batches : List (List F × List F)) (dc : DrawCall F)
    (hd : dc ∈ drawsOf (tri_list_uv_go pso color sv br sc tex batches).1) :
    dc.stencil_ref = (sv, sv) ∧ dc.scissor = sc ∧ dc.pso = pso ∧
    dc.start = 0 := by
  induction batches with
  | nil => simp [tri_list_uv_go, drawsOf] at hd
  | cons p rest ih =>
    obtain ⟨vs, ts⟩ := p
    by_cases hv : vs.length * UV_COMPONENTS = ts.length * POS_COMPONENTS
    · have he : tri_list_uv_go pso color sv br sc tex ((vs, ts) :: rest)
          = (Cmd.update_pos vs :: Cmd.update_uv ts ::
              Cmd.draw
                { start := 0, stop := vs.length / POS_COMPONENTS,
                  pso := pso, color := color, stencil_ref := (sv, sv),
                  blend_ref := br, scissor := sc, texture := some tex } ::
              (tri_list_uv_go pso color sv br sc tex rest).1,
             (tri_list_uv_go pso color sv br sc tex rest).2) := by
        simp only [tri_list_uv_go, if_pos hv]
      rw [he] at hd
      have h2 : drawsOf (Cmd.update_pos vs :: Cmd.update_uv ts ::
          Cmd.draw
            { start := 0, stop := vs.length / POS_COMPONENTS,
              pso := pso, color := color, stencil_ref := (sv, sv),
              blend_ref := br, scissor := sc, texture := some tex } ::
          (tri_list_uv_go pso color sv br sc tex rest).1)
          = ({ start := 0, stop := vs.length / POS_COMPONENTS,
               pso := pso, color := color, stencil_ref := (sv, sv),
               blend_ref := br, scissor := sc, texture := some tex } :
              DrawCall F) ::
            drawsOf (tri_list_uv_go pso color sv br sc tex rest).1 := rfl
      rw [h2] at hd
      rcases List.mem_cons.mp hd with h1 | hd2
      · rw [h1]
        exact ⟨rfl, rfl, rfl, rfl⟩
      · exact ih hd2
    · have he : tri_list_uv_go pso color sv br sc tex ((vs, ts) :: rest)
          = ([], some assert_msg) := by
        simp only [tri_list_uv_go, if_neg hv]
      rw [he] at hd
      simp [drawsOf] at hd

/-! ### Claim theorems -/

/-- C1 (counterexample): the claim states that a scissor coordinate outside
the unsigned-16-bit range causes a reported error rather than
wrapping/truncating.  In fact both `tri_list` and `tri_list_uv` narrow
each coordinate with `as u16`: with scissor `(70000, 2, 3, 4)` the colored
draw call is issued (no error) carrying the wrapped x coordinate
`70000 % 65536 = 4464`, and the textured call likewise completes with no
reported error, its draw carrying the same wrapped rectangle. -/
theorem scissor_out_of_range_wraps_cex :
    drawsOf (tri_list (F := Int) id
        { blend := none, stencil := none, scissor := some (70000, 2, 3, 4) }
        { r := 0, g := 0, b := 0, a := 1 } [[1, 2, 3, 4, 5, 6]]) =
      [{ start := 0, stop := 3,
         pso := colored_pipeline no_blend stencil gfxm.MASK_ALL,
         color := { r := 0, g := 0, b := 0, a := 1 },
         stencil_ref := (0, 0), blend_ref := (1, 1, 1, 1),
         scissor := { x := 4464, y := 2, w := 3, h := 4 }, texture := none }] ∧
    tri_list_uv (F := Int) id
        { blend := none, stencil := none, scissor := some (70000, 2, 3, 4) }
        { r := 0, g := 0, b := 0, a := 1 } { format := .R8_G8_B8_A8 }
        [([1, 2], [3, 4])] =
      (([Cmd.update_pos [1, 2], Cmd.update_uv [3, 4],
         Cmd.draw
           { start := 0, stop := 1,
             pso := textured_pipeline no_blend stencil gfxm.MASK_ALL,
             color := { r := 0, g := 0, b := 0, a := 1 },
             stencil_ref := (0, 0), blend_ref := (1, 1, 1, 1),
             scissor := { x := 4464, y := 2, w := 3, h := 4 },
             texture := some { format := .R8_G8_B8_A8 } }],
        none) : List (Cmd Int) × Option String) ∧
    ¬ 70000 ≤ U16_MAX ∧ (4464 : Nat) ≠ 70000 := by
  refine ⟨rfl, rfl, by decide, by decide⟩

/-- C1 (amended): for every colored or textured draw — any draw call
recorded by `tri_list` or by `tri_list_uv` — an absent scissor maps to the
full rectangle `(0, 0, 65535, 65535)`; a present scissor has each
coordinate reduced `% 2 ^ 16` — lossless whenever the coordinate fits in
the unsigned-16-bit range, and silently wrapped (never an error) when it
does not. -/
theorem scissor_mapping {F : Type} [One F] (tf : F → F) (ds : DrawState)
    (color : Color F) (batches : List (List F)) (texture : Texture)
    (ubatches : List (List F × List F)) (dc : DrawCall F)
    (hmem : Cmd.draw dc ∈ tri_list tf ds color batches ∨
            Cmd.draw dc ∈ (tri_list_uv tf ds color texture ubatches).1) :
    (ds.scissor = none → dc.scissor = { x := 0, y := 0, w := U16_MAX, h := U16_MAX }) ∧
    (∀ x y w h : Nat, ds.scissor = some (x, y, w, h) →
      dc.scissor = { x := x % 65536, y := y % 65536,
                     w := w % 65536, h := h % 65536 } ∧
      (x ≤ U16_MAX → dc.scissor.x = x) ∧ (y ≤ U16_MAX → dc.scissor.y = y) ∧
      (w ≤ U16_MAX → dc.scissor.w = w) ∧ (h ≤ U16_MAX → dc.scissor.h = h)) := by
  have hsc : dc.scissor = scissor_of ds.scissor := by
    rcases hmem with hmem | hmem
    · have hd : dc ∈ batches.map (colored_draw tf ds color) :=
        drawsOf_tri_list tf ds color batches ▸ mem_drawsOf hmem
      obtain ⟨vs, _, hvs⟩ := List.mem_map.mp hd
      rw [← hvs]
      rfl
    · have hd : dc ∈ drawsOf (tri_list_uv_go
          (textured.stencil_blend ds.stencil ds.blend).1
          (gamma_srgb_to_linear tf color)
          (textured.stencil_blend ds.stencil ds.blend).2 (1, 1, 1, 1)
          (scissor_of ds.scissor) texture ubatches).1 :=
        mem_drawsOf hmem
      exact (drawsOf_uv_go_shape _ _ _ _ _ _ ubatches dc hd).2.1
  constructor
  · intro hnone
    rw [hsc, hnone]; rfl
  · intro x y w h hsome
    rw [hsc, hsome]
    have hx : x ≤ U16_MAX → x % 65536 = x := fun hle =>
      Nat.mod_eq_of_lt (Nat.lt_of_le_of_lt hle (by norm_num [U16_MAX]))
    have hy : y ≤ U16_MAX → y % 65536 = y := fun hle =>
      Nat.mod_eq_of_lt (Nat.lt_of_le_of_lt hle (by norm_num [U16_MAX]))
    have hw : w ≤ U16_MAX → w % 65536 = w := fun hle =>
      Nat.mod_eq_of_lt (Nat.lt_of_le_of_lt hle (by norm_num [U16_MAX]))
    have hh : h ≤ U16_MAX → h % 65536 = h := fun hle =>
      Nat.mod_eq_of_lt (Nat.lt_of_le_of_lt hle (by norm_num [U16_MAX]))
    exact ⟨rfl, fun hle => hx hle, fun hle => hy hle,
           fun hle => hw hle, fun hle => hh hle⟩

/-- C1 witness for the amended theorem: with an in-range scissor
`(10, 20, 30, 40)` both the concrete colored draw and the concrete
textured draw carry exactly that rectangle. -/
theorem scissor_mapping_witness :
    (Cmd.draw (colored_draw (F := Int) id
        { blend := none, stencil := none, scissor := some (10, 20, 30, 40) }
        { r := 0, g := 0, b := 0, a := 1 } [1, 2])
      ∈ tri_list (F := Int) id
        { blend := none, stencil := none, scissor := some (10, 20, 30, 40) }
        { r := 0, g := 0, b := 0, a := 1 } [[1, 2]]) ∧
    (colored_draw (F := Int) id
        { blend := none, stencil := none, scissor := some (10, 20, 30, 40) }
        { r := 0, g := 0, b := 0, a := 1 } [1, 2]).scissor
      = { x := 10, y := 20, w := 30, h := 40 } ∧
    (Cmd.draw (textured_draw (F := Int) id
        { blend := none, stencil := none, scissor := some (10, 20, 30, 40) }
        { r := 0, g := 0, b := 0, a := 1 } { format := .R8_G8_B8_A8 }
        ([1, 2], [3, 4]))
      ∈ (tri_list_uv (F := Int) id
        { blend := none, stencil := none, scissor := some (10, 20, 30, 40) }
        { r := 0, g := 0, b := 0, a := 1 } { format := .R8_G8_B8_A8 }
        [([1, 2], [3, 4])]).1) ∧
    (textured_draw (F := Int) id
        { blend := none, stencil := none, scissor := some (10, 20, 30, 40) }
        { r := 0, g := 0, b := 0, a := 1 } { format := .R8_G8_B8_A8 }
        ([1, 2], [3, 4])).scissor
      = { x := 10, y := 20, w := 30, h := 40 } := by
  refine ⟨by decide, ?_, by decide, ?_⟩
  · have h := scissor_mapping (F := Int) id
      { blend := none, stencil := none, scissor := some (10, 20, 30, 40) }
      { r := 0, g := 0, b := 0, a := 1 } [[1, 2]] { format := .R8_G8_B8_A8 }
      [([1, 2], [3, 4])]
      (colored_draw (F := Int) id
        { blend := none, stencil := none, scissor := some (10, 20, 30, 40) }
        { r := 0, g := 0, b := 0, a := 1 } [1, 2])
      (Or.inl (by decide))
    have h2 := (h.2 10 20 30 40 rfl).1
    rw [h2]
  · have h := scissor_mapping (F := Int) id
      { blend := none, stencil := none, scissor := some (10, 20, 30, 40) }
      { r := 0, g := 0, b := 0, a := 1 } [[1, 2]] { format := .R8_G8_B8_A8 }
      [([1, 2], [3, 4])]
      (textured_draw (F := Int) id
        { blend := none, stencil := none, scissor := some (10, 20, 30, 40) }
        { r := 0, g := 0, b := 0, a := 1 } { format := .R8_G8_B8_A8 }
        ([1, 2], [3, 4]))
      (Or.inr (by decide))
    have h2 := (h.2 10 20 30 40 rfl).1
    rw [h2]

/-- C2: a textured batch whose position length times `UV_COMPONENTS`
differs from its texcoord length times `POS_COMPONENTS` triggers the
assertion: the whole call aborts with the input-contract error and no
command — in particular no draw call — is recorded for that batch or any
later one; moreover any batch list containing such a pair makes the call
report the error. -/
theorem uv_mismatch_aborts {F : Type} [One F] (tf : F → F) (ds : DrawState)
    (color : Color F) (texture : Texture) (vertices texture_coords : List F)
    (rest : List (List F × List F))
    (h : vertices.length * UV_COMPONENTS ≠ texture_coords.length * POS_COMPONENTS) :
    tri_list_uv tf ds color texture ((vertices, texture_coords) :: rest)
      = ([], some assert_msg) ∧
    ∀ batches : List (List F × List F),
      (∃ p ∈ batches, p.1.length * UV_COMPONENTS ≠ p.2.length * POS_COMPONENTS) →
      (tri_list_uv tf ds color texture batches).2 = some assert_msg := by
  constructor
  · show tri_list_uv_go _ _ _ _ _ _ _ = _
    simp only [tri_list_uv_go, if_neg h]
  · intro batches hex
    exact tri_list_uv_go_err _ _ _ _ _ _ batches hex

/-- C2 witness: six position floats with two texcoord floats (the spec's
example) abort with the assertion error and produce no draw call. -/
theorem uv_mismatch_aborts_witness :
    (([1, 2, 3, 4, 5, 6] : List Int).length * UV_COMPONENTS
        ≠ ([1, 2] : List Int).length * POS_COMPONENTS) ∧
    tri_list_uv (F := Int) id
        { blend := none, stencil := none, scissor := none }
        { r := 0, g := 0, b := 0, a := 1 } { format := .R8_G8_B8_A8 }
        [([1, 2, 3, 4, 5, 6], [1, 2])]
      = ([], some assert_msg) :=
  ⟨by decide,
   (uv_mismatch_aborts (F := Int) id
     { blend := none, stencil := none, scissor := none }
     { r := 0, g := 0, b := 0, a := 1 } { format := .R8_G8_B8_A8 }
     [1, 2, 3, 4, 5, 6] [1, 2] [] (by decide)).1⟩

/-- C3: each inner-callback invocation of `tri_list` records exactly one
draw call whose vertex count is the batch length divided by
`POS_COMPONENTS` (so the draw list is in one-to-one order-preserving
correspondence with the batch list); the same holds for `tri_list_uv` when
every batch satisfies the length contract, with no error reported. -/
theorem one_draw_per_batch {F : Type} [One F] (tf : F → F) (ds : DrawState)
    (color : Color F) (batches : List (List F)) (texture : Texture)
    (ubatches : List (List F × List F))
    (hok : ∀ p ∈ ubatches, p.1.length * UV_COMPONENTS = p.2.length * POS_COMPONENTS) :
    ((drawsOf (tri_list tf ds color batches)).length = batches.length ∧
     (drawsOf (tri_list tf ds color batches)).map DrawCall.stop
        = batches.map (fun vertices => vertices.length / POS_COMPONENTS)) ∧
    ((tri_list_uv tf ds color texture ubatches).2 = none ∧
     (drawsOf (tri_list_uv tf ds color texture ubatches).1).length = ubatches.length ∧
     (drawsOf (tri_list_uv tf ds color texture ubatches).1).map DrawCall.stop
        = ubatches.map (fun p => p.1.length / POS_COMPONENTS)) := by
  have hc := drawsOf_tri_list tf ds color batches
  have hu := tri_list_uv_go_ok (textured.stencil_blend ds.stencil ds.blend).1
    (gamma_srgb_to_linear tf color) (textured.stencil_blend ds.stencil ds.blend).2
    (1, 1, 1, 1) (scissor_of ds.scissor) texture ubatches hok
  have huv : tri_list_uv tf ds color texture ubatches
      = (ubatches.flatMap (fun p =>
          [Cmd.update_pos p.1, Cmd.update_uv p.2,
           Cmd.draw { start := 0, stop := p.1.length / POS_COMPONENTS,
                      pso := (textured.stencil_blend ds.stencil ds.blend).1,
                      color := gamma_srgb_to_linear tf color,
                      stencil_ref := ((textured.stencil_blend ds.stencil ds.blend).2,
                                      (textured.stencil_blend ds.stencil ds.blend).2),
                      blend_ref := (1, 1, 1, 1), scissor := scissor_of ds.scissor,
                      texture := some texture }]), none) := hu
  have hud : drawsOf (tri_list_uv tf ds color texture ubatches).1
      = ubatches.map (textured_draw tf ds color texture) := by
    rw [huv]
    exact drawsOf_uv_flatMap (textured_draw tf ds color texture) ubatches
  refine ⟨⟨?_, ?_⟩, ?_, ?_, ?_⟩
  · rw [hc, List.length_map]
  · rw [hc, List.map_map]
    rfl
  · rw [huv]
  · rw [hud, List.length_map]
  · rw [hud, List.map_map]
    rfl

/-- C3 witness: a single batch of six floats yields exactly one draw call
of three vertices, for both the colored and the textured path. -/
theorem one_draw_per_batch_witness :
    ((∀ p ∈ ([([1, 2, 3, 4, 5, 6], [7, 8, 9, 10, 11, 12])] :
        List (List Int × List Int)),
      p.1.length * UV_COMPONENTS = p.2.length * POS_COMPONENTS) ∧
     (drawsOf (tri_list (F := Int) id
        { blend := none, stencil := none, scissor := none }
        { r := 0, g := 0, b := 0, a := 1 } [[1, 2, 3, 4, 5, 6]])).map
          DrawCall.stop = [3]) ∧
    (drawsOf (tri_list_uv (F := Int) id
        { blend := none, stencil := none, scissor := none }
        { r := 0, g := 0, b := 0, a := 1 } { format := .R8_G8_B8_A8 }
        [([1, 2, 3, 4, 5, 6], [7, 8, 9, 10, 11, 12])]).1).map
          DrawCall.stop = [3] := by
  have h := one_draw_per_batch (F := Int) id
    { blend := none, stencil := none, scissor := none }
    { r := 0, g := 0, b := 0, a := 1 } [[1, 2, 3, 4, 5, 6]]
    { format := .R8_G8_B8_A8 } [([1, 2, 3, 4, 5, 6], [7, 8, 9, 10, 11, 12])]
    (by decide)
  exact ⟨⟨by decide, h.1.2⟩, h.2.2.2⟩

/-- C4: the stencil reference value returned by `stencil_blend` is 0 when
the clip/stencil mode is absent and otherwise the 8-bit value carried in
the clip descriptor (for `Clip`, `Inside` and `Outside` alike, and for
every blend mode), and every draw call issued by `tri_list` and
`tri_list_uv` applies that single value identically as front and back
stencil reference. -/
theorem stencil_ref_selected_and_applied {T : Type} (m : PsoStencil T)
    (b : Option draw_state.Blend) (v : Nat) :
    (m.stencil_blend none b).2 = 0 ∧
    (m.stencil_blend (some (.Clip v)) b).2 = v ∧
    (m.stencil_blend (some (.Inside v)) b).2 = v ∧
    (m.stencil_blend (some (.Outside v)) b).2 = v ∧
    (∀ (F : Type) [One F] (tf : F → F) (ds : DrawState) (color : Color F)
        (batches : List (List F)) (dc : DrawCall F),
      Cmd.draw dc ∈ tri_list tf ds color batches →
      dc.stencil_ref = ((colored.stencil_blend ds.stencil ds.blend).2,
                        (colored.stencil_blend ds.stencil ds.blend).2)) ∧
    (∀ (F : Type) [One F] (tf : F → F) (ds : DrawState) (color : Color F)
        (texture : Texture) (batches : List (List F × List F)) (dc : DrawCall F),
      Cmd.draw dc ∈ (tri_list_uv tf ds color texture batches).1 →
      dc.stencil_ref = ((textured.stencil_blend ds.stencil ds.blend).2,
                        (textured.stencil_blend ds.stencil ds.blend).2)) := by
  refine ⟨rfl, rfl, rfl, rfl, ?_, ?_⟩
  · intro F _ tf ds color batches dc hmem
    have hd : dc ∈ batches.map (colored_draw tf ds color) :=
      drawsOf_tri_list tf ds color batches ▸ mem_drawsOf hmem
    obtain ⟨vs, _, hvs⟩ := List.mem_map.mp hd
    rw [← hvs]
    rfl
  · intro F _ tf ds color texture batches dc hmem
    have hd : dc ∈ drawsOf (tri_list_uv_go
        (textured.stencil_blend ds.stencil ds.blend).1
        (gamma_srgb_to_linear tf color)
        (textured.stencil_blend ds.stencil ds.blend).2 (1, 1, 1, 1)
        (scissor_of ds.scissor) texture batches).1 :=
      mem_drawsOf hmem
    exact (drawsOf_uv_go_shape _ _ _ _ _ _ batches dc hd).1

/-- C4 witness: a colored draw under `Clip(7)` with `Alpha` blending is
issued with stencil reference 7 on both front and back. -/
theorem stencil_ref_selected_and_applied_witness :
    (Cmd.draw (colored_draw (F := Int) id
        { blend := some .Alpha, stencil := some (.Clip 7), scissor := none }
        { r := 0, g := 0, b := 0, a := 1 } [1, 2, 3, 4, 5, 6])
      ∈ tri_list (F := Int) id
        { blend := some .Alpha, stencil := some (.Clip 7), scissor := none }
        { r := 0, g := 0, b := 0, a := 1 } [[1, 2, 3, 4, 5, 6]]) ∧
    (colored.stencil_blend (some (.Clip 7)) (some .Alpha)).2 = 7 ∧
    (colored_draw (F := Int) id
        { blend := some .Alpha, stencil := some (.Clip 7), scissor := none }
        { r := 0, g := 0, b := 0, a := 1 } [1, 2, 3, 4, 5, 6]).stencil_ref
      = (7, 7) := by
  have h := stencil_ref_selected_and_applied colored (some .Alpha) 7
  refine ⟨by decide, h.2.1, ?_⟩
  exact h.2.2.2.2.1 Int id
    { blend := some .Alpha, stencil := some (.Clip 7), scissor := none }
    { r := 0, g := 0, b := 0, a := 1 } [[1, 2, 3, 4, 5, 6]]
    (colored_draw (F := Int) id
      { blend := some .Alpha, stencil := some (.Clip 7), scissor := none }
      { r := 0, g := 0, b := 0, a := 1 } [1, 2, 3, 4, 5, 6])
    (by decide)

/-- C5: `stencil_blend` composed with `blend` is a pure total lookup with
no failure path: an absent blend mode selects the `none` blend entry of
the selected row and an absent clip mode selects the `none` clip row; in
particular `select(None, None)` always returns the same matrix entry
`m.none.none` (the embedding is a pure function of the matrix and the two
arguments, so repeated calls cannot differ and no hidden state exists). -/
theorem stencil_blend_total_pure_lookup {T : Type} (m : PsoStencil T)
    (b : Option draw_state.Blend) (v : Nat) :
    m.stencil_blend none none = (m.none.none, 0) ∧
    (m.stencil_blend none b).1 = m.none.blend b ∧
    m.none.blend none = m.none.none ∧
    (m.stencil_blend (some (.Clip v)) none).1 = m.clip.none ∧
    (m.stencil_blend (some (.Inside v)) none).1 = m.inside.none ∧
    (m.stencil_blend (some (.Outside v)) none).1 = m.outside.none :=
  ⟨rfl, rfl, rfl, rfl, rfl, rfl⟩

/-- C6: `has_texture_alpha` is true exactly for the six RGBA surface
formats and false for every other format of the exhaustive enumeration
(every format is listed in `all_surface_types`). -/
theorem has_texture_alpha_iff (t : Texture) :
    (has_texture_alpha t = true ↔
      (t.format = .R4_G4_B4_A4 ∨ t.format = .R5_G5_B5_A1 ∨
       t.format = .R8_G8_B8_A8 ∨ t.format = .R10_G10_B10_A2 ∨
       t.format = .R16_G16_B16_A16 ∨ t.format = .R32_G32_B32_A32)) ∧
    t.format ∈ all_surface_types := by
  obtain ⟨s⟩ := t
  cases s <;> simp [has_texture_alpha, all_surface_types]

/-- C7: in every clip-mode row of the matrix built by `PsoStencil::new`,
the `None` blend entry is created through the same pipeline-creation
function `f` as the four real blend modes, with the degenerate `no_blend`
function: source factor `One`, destination factor `Zero`, equation `Add`,
on both the color and the alpha channel. -/
theorem none_blend_degenerate {T : Type}
    (f : gfxm.Blend → gfxm.Stencil → gfxm.ColorMask → T) :
    (PsoStencil.new f).none.none = f no_blend stencil gfxm.MASK_ALL ∧
    (PsoStencil.new f).clip.none = f no_blend stencil_clip gfxm.MASK_NONE ∧
    (PsoStencil.new f).inside.none = f no_blend stencil_inside gfxm.MASK_ALL ∧
    (PsoStencil.new f).outside.none = f no_blend stencil_outside gfxm.MASK_ALL ∧
    no_blend.color.source = .One ∧ no_blend.color.destination = .Zero ∧
    no_blend.color.equation = .Add ∧
    no_blend.alpha.source = .One ∧ no_blend.alpha.destination = .Zero ∧
    no_blend.alpha.equation = .Add :=
  ⟨rfl, rfl, rfl, rfl, rfl, rfl, rfl, rfl, rfl, rfl⟩

/-- C8: in both constructed matrices, every pipeline of the `Clip` row has
the empty color write mask and the `stencil_clip` state — a comparison
that never passes whose fail operation replaces the stencil buffer with
the reference value, on front and back — while every pipeline of the
`None`, `Inside` and `Outside` rows has the full color write mask. -/
theorem clip_row_mask_and_stencil (b : Option draw_state.Blend) :
    (colored.clip.blend b).mask = gfxm.MASK_NONE ∧
    (colored.clip.blend b).stencil = stencil_clip ∧
    (textured.clip.blend b).mask = gfxm.MASK_NONE ∧
    (textured.clip.blend b).stencil = stencil_clip ∧
    stencil_clip.front.fun_ = .Never ∧ stencil_clip.front.op_fail = .Replace ∧
    stencil_clip.back.fun_ = .Never ∧ stencil_clip.back.op_fail = .Replace ∧
    (colored.none.blend b).mask = gfxm.MASK_ALL ∧
    (colored.inside.blend b).mask = gfxm.MASK_ALL ∧
    (colored.outside.blend b).mask = gfxm.MASK_ALL ∧
    (textured.none.blend b).mask = gfxm.MASK_ALL ∧
    (textured.inside.blend b).mask = gfxm.MASK_ALL ∧
    (textured.outside.blend b).mask = gfxm.MASK_ALL := by
  cases b with
  | none => decide
  | some bb => cases bb <;> decide

/-- C9: `clear_color` records exactly one clear command, whose payload is
the first three components of `gamma_srgb_to_linear` applied to the input
— the transfer function is applied exactly once to each channel before
the color reaches the clear operation. -/
theorem clear_color_gamma_once {F : Type} (tf : F → F) (c : Color F) :
    clear_color tf c =
      [Cmd.clear ((gamma_srgb_to_linear tf c).r, (gamma_srgb_to_linear tf c).g,
                  (gamma_srgb_to_linear tf c).b)] ∧
    clear_color tf c = [Cmd.clear (tf c.r, tf c.g, tf c.b)] :=
  ⟨rfl, rfl⟩

/-- C10: only the red, green and blue components of the gamma-corrected
color reach the clear operation: two input colors differing only in alpha
record identical clear commands. -/
theorem clear_color_alpha_independent {F : Type} (tf : F → F)
    (c₁ c₂ : Color F) (hr : c₁.r = c₂.r) (hg : c₁.g = c₂.g)
    (hb : c₁.b = c₂.b) :
    clear_color tf c₁ = clear_color tf c₂ := by
  simp [clear_color, gamma_srgb_to_linear, hr, hg, hb]

/-- C10 witness: sRGB gray `(1/2, 1/2, 1/2)` with alpha 1 and with alpha 0
clear identically. -/
theorem clear_color_alpha_independent_witness :
    ((1 : Rat) / 2 = 1 / 2) ∧
    clear_color (F := Rat) id { r := 1/2, g := 1/2, b := 1/2, a := 1 }
      = clear_color (F := Rat) id { r := 1/2, g := 1/2, b := 1/2, a := 0 } :=
  ⟨rfl, clear_color_alpha_independent (F := Rat) id
    { r := 1/2, g := 1/2, b := 1/2, a := 1 }
    { r := 1/2, g := 1/2, b := 1/2, a := 0 } rfl rfl rfl⟩

end GfxG
